import Mathlib

/-!
Verification of the Bookworm library-management workflow (library/models.py,
library/views.py) against its natural-language specification.

Shallow embedding conventions:
* Dates are modelled as natural numbers counting whole calendar days, so that
  Python `date` subtraction `(return_date - due_date).days` becomes `Nat`
  subtraction on day numbers.
* Monetary amounts are modelled in integer cents (the code computes
  `Decimal(overdue_days) * Decimal('1.00')`, which is exact two-decimal
  currency; `d` dollars is `d * 100` cents, and Stripe's
  `int(fine.amount * 100)` is exactly the cent count).
* The database tables (`authors`, `books`, `members`, `loans`, `fines`) become
  lists of records in a `LibraryState`; Django's autoincrement primary keys
  become explicit `next…Id` counters.
* Each Django view's POST handler becomes a pure function from the request's
  form fields and the current date to a result value and an updated state.
  ORM foreign-key traversal (`fine.member.email`, `fine.loan.book.title`)
  becomes lookup by the stored id; a dangling reference raises in Python and is
  caught by the view's generic `except`, modelled by a `refError` result.
-/

/-- Row of the `authors` table (models.Author). `get_or_create(authorname=…)`
only ever fills the name, so the other columns are optional. -/
structure Author where
  authorid : Nat
  authorname : String
  biography : Option String := none
  birthyear : Option String := none
  nationality : Option String := none
deriving Repr, DecidableEq

/-- Row of the `books` table (models.Book). `author` is a nullable foreign
key, stored as the referenced `authorid`. -/
structure Book where
  bookid : Nat
  title : String
  author : Option Nat
  isbn : String
  genre : String
  status : String
deriving Repr, DecidableEq

/-- Row of the `members` table (models.Member). -/
structure Member where
  memberid : Nat
  firstname : String
  lastname : String
  email : String
  phonenumber : String
  membershipstatus : String
deriving Repr, DecidableEq

/-- Row of the `loans` table (models.Loan). Dates are day numbers;
`returndate` is nullable. -/
structure Loan where
  loanid : Nat
  bookid : Nat
  memberid : Nat
  checkoutdate : Nat
  duedate : Nat
  returndate : Option Nat
deriving Repr, DecidableEq

/-- Row of the `fines` table (models.Fine). `amountCents` is the
`Amount` decimal column in cents. -/
structure Fine where
  fineid : Nat
  loanid : Nat
  memberid : Nat
  amountCents : Nat
  status : String
deriving Repr, DecidableEq

/-- The relational store: one list per table plus autoincrement counters. -/
structure LibraryState where
  authors : List Author
  books : List Book
  members : List Member
  loans : List Loan
  fines : List Fine
  nextAuthorId : Nat
  nextBookId : Nat
  nextMemberId : Nat
  nextLoanId : Nat
  nextFineId : Nat
deriving Repr, DecidableEq

/-- The requesting actor as supplied by Django's session layer:
`request.user.email` and `request.user.is_staff`. -/
structure Actor where
  email : String
  isStaff : Bool
deriving Repr, DecidableEq

/-- Case folding as applied by the case-insensitive lookups (`icontains`,
`iexact`): the character sequence of the string, lowercased. (Kept at the
`List Char` level so that concrete instances reduce inside the kernel.) -/
def lowered (s : String) : List Char := s.data.map Char.toLower

/-- `Member.objects.get(memberid=member_id)`: the row with the given primary
key, if any. -/
def findMember (s : LibraryState) (memberId : Nat) : Option Member :=
  s.members.find? (fun m => m.memberid == memberId)

/-- `Book.objects.get(bookid=book_id)`. -/
def findBook (s : LibraryState) (bookId : Nat) : Option Book :=
  s.books.find? (fun b => b.bookid == bookId)

/-- `Fine.objects.get(fineid=fine_id)`. -/
def findFine (s : LibraryState) (fineId : Nat) : Option Fine :=
  s.fines.find? (fun f => f.fineid == fineId)

/-- Foreign-key traversal `fine.loan`: the loan row with the stored id. -/
def findLoan (s : LibraryState) (loanId : Nat) : Option Loan :=
  s.loans.find? (fun l => l.loanid == loanId)

/-- The filter `Loan.objects.filter(book=book, returndate__isnull=True)`
membership test: an open loan of the given book. -/
def openP (bookId : Nat) (l : Loan) : Bool :=
  l.bookid == bookId && l.returndate.isNone

/-- Number of open loans of a book: size of
`Loan.objects.filter(book=book, returndate__isnull=True)`. -/
def countOpen (s : LibraryState) (bookId : Nat) : Nat :=
  s.loans.countP (openP bookId)

/-- Outcome of `register_member_view` POST. -/
inductive RegisterResult where
  | success
  | emailTaken
deriving Repr, DecidableEq

/-- `register_member_view` POST handler: `Member.objects.create(...)` with
`membershipstatus='Active'`. The unique constraint on `Email` makes the
create raise (caught by the view) when the email is already present, leaving
the store unchanged. -/
def register_member_view (s : LibraryState)
    (fname lname email phone : String) : RegisterResult × LibraryState :=
  if s.members.any (fun m => m.email == email) then
    (.emailTaken, s)
  else
    (.success,
     { s with
       members := s.members ++
         [{ memberid := s.nextMemberId, firstname := fname, lastname := lname,
            email := email, phonenumber := phone, membershipstatus := "Active" }],
       nextMemberId := s.nextMemberId + 1 })

/-- `Author.objects.get_or_create(authorname=author_name)` (case-sensitive
exact match): returns the existing author's id, or inserts a fresh row. -/
def getOrCreateAuthor (s : LibraryState) (authorName : String) :
    Nat × LibraryState :=
  match s.authors.find? (fun a => a.authorname == authorName) with
  | some a => (a.authorid, s)
  | none =>
      (s.nextAuthorId,
       { s with
         authors := s.authors ++ [{ authorid := s.nextAuthorId, authorname := authorName }],
         nextAuthorId := s.nextAuthorId + 1 })

/-- Outcome of `add_book_view` POST. -/
inductive AddBookResult where
  | success
  | isbnTaken
deriving Repr, DecidableEq

/-- `add_book_view` POST handler: get-or-create the author, then
`Book.objects.create(..., status='Available')`. The unique constraint on
`ISBN` makes the book create raise (caught by the view) when the ISBN is
already present; the author row created just before persists, since the view
runs no enclosing transaction. -/
def add_book_view (s : LibraryState)
    (title authorName isbn genre : String) : AddBookResult × LibraryState :=
  let aid := (getOrCreateAuthor s authorName).1
  let s1 := (getOrCreateAuthor s authorName).2
  if s1.books.any (fun b => b.isbn == isbn) then
    (.isbnTaken, s1)
  else
    (.success,
     { s1 with
       books := s1.books ++
         [{ bookid := s1.nextBookId, title := title, author := some aid,
            isbn := isbn, genre := genre, status := "Available" }],
       nextBookId := s1.nextBookId + 1 })

/-- Outcome of `book_detail_view` POST (the book-edit form). -/
inductive EditResult where
  | success
  | bookNotFound
  | isbnTaken
deriving Repr, DecidableEq

/-- The book-edit form's author resolution:
`Author.objects.filter(authorname__iexact=author_name).first()`, creating a
row when no case-insensitive match exists. -/
def iexactAuthor (s : LibraryState) (authorName : String) : Nat × LibraryState :=
  match s.authors.find? (fun a => lowered a.authorname == lowered authorName) with
  | some a => (a.authorid, s)
  | none =>
      (s.nextAuthorId,
       { s with
         authors := s.authors ++ [{ authorid := s.nextAuthorId, authorname := authorName }],
         nextAuthorId := s.nextAuthorId + 1 })

/-- `book_detail_view` POST handler: look the book up, resolve the author by
case-insensitive exact name (`authorname__iexact`, creating one if absent),
then overwrite title/author/isbn/genre/status from the form and `book.save()`.
The form's `status` value is written as-is. A conflicting ISBN on another
book makes `book.save()` raise (caught), after the author row persisted. -/
def book_detail_view (s : LibraryState) (bookId : Nat)
    (title authorName isbn genre status : String) : EditResult × LibraryState :=
  match findBook s bookId with
  | none => (.bookNotFound, s)
  | some book =>
      let aid := (iexactAuthor s authorName).1
      let s1 := (iexactAuthor s authorName).2
      if s1.books.any (fun b => b.bookid != book.bookid && b.isbn == isbn) then
        (.isbnTaken, s1)
      else
        (.success,
         { s1 with
           books := s1.books.map (fun b =>
             if b.bookid == book.bookid then
               { b with title := title, author := some aid, isbn := isbn,
                        genre := genre, status := status }
             else b) })

/-- Outcome of `checkout_view` POST. -/
inductive CheckoutResult where
  | success
  | memberNotFound
  | bookNotFound
  | notAvailable
deriving Repr, DecidableEq

/-- `checkout_view` POST handler: resolve member then book (each missing row
is reported and aborts with no change); refuse when `book.status` is not
`'Available'`; otherwise create the loan (`checkoutdate = today`,
`duedate = today + 14 days`, `returndate` null) and set the book's status to
`'Checked Out'`. -/
def checkout_view (s : LibraryState) (memberId bookId today : Nat) :
    CheckoutResult × LibraryState :=
  match findMember s memberId with
  | none => (.memberNotFound, s)
  | some member =>
      match findBook s bookId with
      | none => (.bookNotFound, s)
      | some book =>
          if book.status != "Available" then
            (.notAvailable, s)
          else
            (.success,
             { s with
               loans := s.loans ++
                 [{ loanid := s.nextLoanId, bookid := book.bookid,
                    memberid := member.memberid, checkoutdate := today,
                    duedate := today + 14, returndate := none }],
               books := s.books.map (fun b =>
                 if b.bookid == book.bookid then { b with status := "Checked Out" } else b),
               nextLoanId := s.nextLoanId + 1 })

/-- Outcome of `return_view` POST. -/
inductive ReturnResult where
  | onTime
  | late (overdueDays : Nat)
  | bookNotFound
  | noActiveLoan
deriving Repr, DecidableEq

/-- `return_view` POST handler: resolve the book; take the first loan from
`Loan.objects.filter(book=book, returndate__isnull=True)`; if none, report
and change nothing; otherwise stamp its `returndate` with today, set the
book's status to `'Available'`, and — when today is strictly past the due
date — create a Fine of `overdue_days * 1.00` dollars with status
`'Unpaid'`. -/
def return_view (s : LibraryState) (bookId today : Nat) :
    ReturnResult × LibraryState :=
  match findBook s bookId with
  | none => (.bookNotFound, s)
  | some book =>
      match s.loans.find? (openP book.bookid) with
      | none => (.noActiveLoan, s)
      | some loan =>
          let s1 :=
            { s with
              loans := s.loans.map (fun l =>
                if l.loanid == loan.loanid then { l with returndate := some today } else l),
              books := s.books.map (fun b =>
                if b.bookid == book.bookid then { b with status := "Available" } else b) }
          if loan.duedate < today then
            let overdue_days := today - loan.duedate
            (.late overdue_days,
             { s1 with
               fines := s1.fines ++
                 [{ fineid := s.nextFineId, loanid := loan.loanid,
                    memberid := loan.memberid,
                    amountCents := overdue_days * 100, status := "Unpaid" }],
               nextFineId := s.nextFineId + 1 })
          else
            (.onTime, s1)

/-- Outcome of `create_checkout_session` (fine-settlement initiate).
`redirectToGateway` means the Stripe session was created — its argument
carries `unit_amount = int(fine.amount * 100)` cents and the line-item
description; `refError` is the generic `except Exception` path hit when a
foreign-key traversal (`fine.member`, `fine.loan.book`) finds no row, which
happens before any gateway call. -/
inductive InitiateResult where
  | redirectToGateway (amountCents : Nat) (description : String)
  | fineNotFound
  | unauthorized
  | refError
deriving Repr, DecidableEq

/-- Argument evaluation for `stripe.checkout.Session.create`: the line-item
description traverses `fine.loan.book.title`, so a dangling reference raises
before the gateway is contacted. -/
def sessionFor (s : LibraryState) (fine : Fine) : InitiateResult :=
  match findLoan s fine.loanid with
  | none => .refError
  | some loan =>
      match findBook s loan.bookid with
      | none => .refError
      | some book =>
          .redirectToGateway fine.amountCents ("Library Fine - Book: " ++ book.title)

/-- `create_checkout_session`: look up the fine; a non-staff actor must have
the fine owner's email (`fine.member.email != request.user.email` is
refused); only then is the Stripe session created. -/
def create_checkout_session (s : LibraryState) (actor : Actor) (fineId : Nat) :
    InitiateResult :=
  match findFine s fineId with
  | none => .fineNotFound
  | some fine =>
      if actor.isStaff then
        sessionFor s fine
      else
        match findMember s fine.memberid with
        | none => .refError
        | some m =>
            if m.email != actor.email then .unauthorized
            else sessionFor s fine

/-- Outcome of `payment_success` (fine-settlement confirm callback). `paid`
carries the amount echoed in the success message. -/
inductive ConfirmResult where
  | paid (amountCents : Nat)
  | fineNotFound
deriving Repr, DecidableEq

/-- `payment_success`: look the fine up by id and set its status to
`'Paid'` unconditionally. The view body never reads `request.user`; the
`actor` parameter records only that some authenticated session invoked the
callback. -/
def payment_success (s : LibraryState) (_actor : Actor) (fineId : Nat) :
    ConfirmResult × LibraryState :=
  match findFine s fineId with
  | none => (.fineNotFound, s)
  | some fine =>
      (.paid fine.amountCents,
       { s with
         fines := s.fines.map (fun f =>
           if f.fineid == fine.fineid then { f with status := "Paid" } else f) })

/-- The MIME message assembled by `notify_debtor_view`: destination address,
subject, plain-text part and HTML part. -/
structure EmailMessage where
  toAddr : String
  subject : String
  textBody : String
  htmlBody : String
deriving Repr, DecidableEq

/-- Outcome of `notify_debtor_view`. -/
inductive NotifyResult where
  | sent (msg : EmailMessage)
  | noDebt
  | memberNotFound
deriving Repr, DecidableEq

/-- Total of `Fine.objects.filter(member=member, status='Unpaid')` amounts,
in cents (`sum(fine.amount for fine in unpaid_fines)`). -/
def totalUnpaidCents (s : LibraryState) (memberId : Nat) : Nat :=
  ((s.fines.filter (fun f => f.memberid == memberId && f.status == "Unpaid")).map
    Fine.amountCents).sum

/-- Rendering of a two-decimal `Decimal` amount stored as cents, as Python's
`str` prints it inside the f-strings (`6.00`, `12.50`, …). -/
def centsToString (c : Nat) : String :=
  toString (c / 100) ++ "." ++
    (if c % 100 < 10 then "0" ++ toString (c % 100) else toString (c % 100))

/-- `text_body` up to the interpolated `{member.firstname}`. -/
def textA : String := "Dear "

/-- `text_body` between `{member.firstname}` and `${total_debt}`. -/
def textB : String :=
  ",\n\nThis is a reminder that you have outstanding fines totaling $"

/-- `text_body` between `{total_debt}` and `{account_url}`. -/
def textC : String :=
  ".\nPlease log in to your account to view details and make a payment: "

/-- `text_body` after `{account_url}`. -/
def textD : String := "\n\nThank you,\nBookworm Library"

/-- `html_body` up to the interpolated `{member.firstname}` (the f-string
keeps the 12-space indentation of the source). -/
def htmlA : String :=
  "
            <html>
            <body style=\"font-family: \x27Segoe UI\x27, Tahoma, Geneva, Verdana, sans-serif; line-height: 1.6; color: #333; background-color: #f4f4f4; margin: 0; padding: 20px;\">
                <div style=\"max-width: 600px; margin: 0 auto; background-color: #ffffff; border-radius: 8px; overflow: hidden; box-shadow: 0 2px 10px rgba(0,0,0,0.1);\">
                    <div style=\"background-color: #2c3e50; padding: 25px; text-align: center;\">
                        <h1 style=\"color: #ffffff; margin: 0; font-size: 24px;\">Bookworm Library</h1>
                    </div>
                    <div style=\"padding: 40px 30px;\">
                        <h2 style=\"color: #2c3e50; margin-top: 0; font-size: 20px;\">Outstanding Balance Notice</h2>
                        <p>Dear "

/-- `html_body` between `{member.firstname}` and `${total_debt}`. -/
def htmlB : String :=
  ",</p>
                        <p>We hope you are enjoying your reading journey with us.</p>
                        <p>This is a friendly reminder that your account currently has an outstanding balance for overdue items.</p>
                        
                        <div style=\"background-color: #fff5f5; border-left: 4px solid #e74c3c; padding: 15px; margin: 25px 0; border-radius: 4px;\">
                            <p style=\"margin: 0; font-size: 1.1em; color: #c0392b;\"><strong>Total Amount Due:</strong> <span style=\"font-size: 1.3em; font-weight: bold;\">$"

/-- `html_body` between `{total_debt}` and `{account_url}`. -/
def htmlC : String :=
  "</span></p>
                        </div>

                        <p>Please log in to your library account to view the specific details of these fines and to process your payment securely.</p>
                        
                        <div style=\"text-align: center; margin-top: 35px; margin-bottom: 20px;\">
                            <a href=\""

/-- `html_body` between `{account_url}` and `{timezone.now().year}`. -/
def htmlD : String :=
  "\" style=\"background-color: #3498db; color: white; padding: 14px 30px; text-decoration: none; border-radius: 50px; font-weight: bold; font-size: 16px; display: inline-block; box-shadow: 0 4px 6px rgba(52, 152, 219, 0.2);\">View My Account</a>
                        </div>
                    </div>
                    <div style=\"background-color: #f8fafc; padding: 20px; text-align: center; font-size: 13px; color: #64748b; border-top: 1px solid #e2e8f0;\">
                        <p style=\"margin: 5px 0;\">&copy; "

/-- `html_body` after `{timezone.now().year}`. -/
def htmlE : String :=
  " Bookworm Library System</p>
                        <p style=\"margin: 5px 0;\">This is an automated message. Please do not reply directly to this email.</p>
                    </div>
                </div>
            </body>
            </html>
            "

/-- `notify_debtor_view`: resolve the member, total their Unpaid fines, and
either report the informational no-op (`total_debt == 0`) or assemble and
send the two-part MIME message to `member.email`. `accountUrl` is
`request.build_absolute_uri('/fees/')` and `year` is `timezone.now().year`,
both inputs of the request context. -/
def notify_debtor_view (s : LibraryState) (memberId : Nat)
    (accountUrl : String) (year : Nat) : NotifyResult :=
  match findMember s memberId with
  | none => .memberNotFound
  | some member =>
      let totalDebt := totalUnpaidCents s memberId
      if 0 < totalDebt then
        .sent
          { toAddr := member.email
            subject := "Action Required: Outstanding Library Fines"
            textBody :=
              (textA ++ member.firstname ++ textB) ++
                (centsToString totalDebt ++ (textC ++ accountUrl ++ textD))
            htmlBody :=
              (htmlA ++ member.firstname ++ htmlB) ++
                (centsToString totalDebt ++
                  (htmlC ++ accountUrl ++ htmlD ++ toString year ++ htmlE)) }
      else .noDebt

/-- Django's `icontains` lookup: case-insensitive substring containment. -/
def icontains (hay needle : String) : Bool :=
  decide (List.IsInfix (lowered needle) (lowered hay))

/-- `member_list_view`: with a non-empty `q`, filter members by
`firstname | lastname | email | memberid` icontains, OR-combined; with no
query, list all members truncated to the first 50. -/
def member_list_view (s : LibraryState) (query : String) : List Member :=
  if query != "" then
    s.members.filter (fun m =>
      icontains m.firstname query || icontains m.lastname query ||
      icontains m.email query || icontains (toString m.memberid) query)
  else
    s.members.take 50

/-- The `author__authorname__icontains` join lookup: a book matches when its
(non-null) author resolves to a row whose name contains the query. -/
def bookAuthorMatches (s : LibraryState) (b : Book) (q : String) : Bool :=
  match b.author with
  | some aid => s.authors.any (fun a => a.authorid == aid && icontains a.authorname q)
  | none => false

/-- `book_list_view`: with a non-empty `q`, filter books by
`title | author__authorname | isbn` icontains, OR-combined; with no query,
list all books truncated to the first 50. -/
def book_list_view (s : LibraryState) (query : String) : List Book :=
  if query != "" then
    s.books.filter (fun b =>
      icontains b.title query || bookAuthorMatches s b query ||
      icontains b.isbn query)
  else
    s.books.take 50

/-- `search_view`: `results` stays `None` unless a non-empty `search_term`
arrives; then `search_type` selects a single-field icontains filter —
`'title'` matches titles only, `'author'` matches author names only, and any
other type leaves `results = None`. -/
def search_view (s : LibraryState) (searchTerm searchType : String) :
    Option (List Book) :=
  if searchTerm != "" then
    if searchType == "title" then
      some (s.books.filter (fun b => icontains b.title searchTerm))
    else if searchType == "author" then
      some (s.books.filter (fun b => bookAuthorMatches s b searchTerm))
    else none
  else none

/-- The catalog/loan mutating requests: member registration, book add,
checkout, return, and the book-edit form. Each carries its form fields;
checkout and return also carry the request day (`timezone.now().date()`). -/
inductive Op where
  | register (fname lname email phone : String)
  | addBook (title authorName isbn genre : String)
  | checkout (memberId bookId today : Nat)
  | ret (bookId today : Nat)
  | edit (bookId : Nat) (title authorName isbn genre status : String)
deriving Repr, DecidableEq

/-- Whether an operation is the book-edit form. -/
def Op.isEdit : Op → Bool
  | .edit .. => true
  | _ => false

/-- State transition of one request. -/
def applyOp (s : LibraryState) : Op → LibraryState
  | .register fname lname email phone => (register_member_view s fname lname email phone).2
  | .addBook title authorName isbn genre => (add_book_view s title authorName isbn genre).2
  | .checkout memberId bookId today => (checkout_view s memberId bookId today).2
  | .ret bookId today => (return_view s bookId today).2
  | .edit bookId title authorName isbn genre status =>
      (book_detail_view s bookId title authorName isbn genre status).2

/-- The empty store: no rows, autoincrement counters at 1. -/
def initState : LibraryState :=
  { authors := [], books := [], members := [], loans := [], fines := [],
    nextAuthorId := 1, nextBookId := 1, nextMemberId := 1, nextLoanId := 1,
    nextFineId := 1 }

/-- State reached by a sequence of requests against the empty store. -/
def run (ops : List Op) : LibraryState :=
  ops.foldl applyOp initState

/-- The spec's Book/Loan invariant: a book's status is `'Checked Out'`
exactly when it has an open loan (null return date), and it never has two
open loans. -/
def StatusInv (s : LibraryState) : Prop :=
  ∀ b ∈ s.books, (b.status = "Checked Out" ↔ countOpen s b.bookid ≠ 0) ∧
    countOpen s b.bookid ≤ 1

/-- Executable mirror of `StatusInv`, used to evaluate the invariant on
concrete states. -/
def statusInvB (s : LibraryState) : Bool :=
  s.books.all (fun b =>
    ((b.status == "Checked Out") == (countOpen s b.bookid != 0)) &&
    decide (countOpen s b.bookid ≤ 1))

theorem statusInvB_iff (s : LibraryState) : statusInvB s = true ↔ StatusInv s := by
  unfold statusInvB StatusInv
  rw [List.all_eq_true]
  constructor
  · intro h b hb
    have h' := h b hb
    rw [Bool.and_eq_true, decide_eq_true_eq] at h'
    refine ⟨?_, h'.2⟩
    have h1 : (b.status == "Checked Out") = (countOpen s b.bookid != 0) :=
      beq_iff_eq.mp h'.1
    rw [Bool.eq_iff_iff] at h1
    simpa using h1
  · intro h b hb
    rcases h b hb with ⟨h1, h2⟩
    rw [Bool.and_eq_true, decide_eq_true_eq]
    refine ⟨beq_iff_eq.mpr ?_, h2⟩
    rw [Bool.eq_iff_iff]
    simpa using h1

instance (s : LibraryState) : Decidable (StatusInv s) :=
  decidable_of_iff _ (statusInvB_iff s)

/-- Relational well-formedness maintained by the autoincrement keys: primary
keys of books and loans are distinct and below their counters, and loans
reference only already-allocated book ids. -/
def KeysOk (s : LibraryState) : Prop :=
  (s.books.map Book.bookid).Nodup ∧
  (s.loans.map Loan.loanid).Nodup ∧
  (∀ b ∈ s.books, b.bookid < s.nextBookId) ∧
  (∀ l ∈ s.loans, l.loanid < s.nextLoanId) ∧
  (∀ l ∈ s.loans, l.bookid < s.nextBookId)

instance (s : LibraryState) : Decidable (KeysOk s) := by
  unfold KeysOk; infer_instance

/-- Both well-formedness and the Book/Loan invariant together: the induction
hypothesis carried along workflow traces. -/
def Good (s : LibraryState) : Prop := KeysOk s ∧ StatusInv s

theorem good_initState : Good initState := by
  refine ⟨⟨?_, ?_, ?_, ?_, ?_⟩, ?_⟩ <;> simp [initState, StatusInv]

/-- Two distinct members of a list that both satisfy `p` force a `countP`
of at least two. -/
theorem two_le_countP {α : Type} {p : α → Bool} {l : List α} {a b : α}
    (ha : a ∈ l) (hb : b ∈ l) (hab : a ≠ b)
    (hpa : p a = true) (hpb : p b = true) : 2 ≤ l.countP p := by
  induction l with
  | nil => cases ha
  | cons x xs ih =>
    rcases List.mem_cons.mp ha with rfl | ha'
    · rcases List.mem_cons.mp hb with rfl | hb'
      · exact absurd rfl hab
      · have h1 : 0 < xs.countP p := List.countP_pos_iff.mpr ⟨b, hb', hpb⟩
        rw [List.countP_cons_of_pos _ _ hpa]
        omega
    · rcases List.mem_cons.mp hb with rfl | hb'
      · have h1 : 0 < xs.countP p := List.countP_pos_iff.mpr ⟨a, ha', hpa⟩
        rw [List.countP_cons_of_pos _ _ hpb]
        omega
      · have h2 := ih ha' hb'
        rw [List.countP_cons]
        omega

/-- A successful `find?` splits its list at the found element, with every
earlier element failing the predicate. -/
theorem find?_split {α : Type} {p : α → Bool} {l : List α} {a : α}
    (h : l.find? p = some a) :
    ∃ l₁ l₂, l = l₁ ++ a :: l₂ ∧ ∀ x ∈ l₁, p x = false := by
  induction l with
  | nil => simp [List.find?] at h
  | cons x xs ih =>
    by_cases hx : p x = true
    · rw [List.find?_cons_of_pos _ hx] at h
      cases h
      exact ⟨[], xs, rfl, by simp⟩
    · rw [List.find?_cons_of_neg _ (by simpa using hx)] at h
      obtain ⟨l₁, l₂, rfl, hl₁⟩ := ih h
      refine ⟨x :: l₁, l₂, rfl, ?_⟩
      intro y hy
      rcases List.mem_cons.mp hy with rfl | hy'
      · simpa using hx
      · exact hl₁ y hy'

theorem countOpen_eq_of_loans_eq {s t : LibraryState} (h : s.loans = t.loans)
    (bid : Nat) : countOpen s bid = countOpen t bid := by
  unfold countOpen; rw [h]

theorem getOrCreateAuthor_books (s : LibraryState) (n : String) :
    (getOrCreateAuthor s n).2.books = s.books := by
  unfold getOrCreateAuthor; split <;> rfl

theorem getOrCreateAuthor_loans (s : LibraryState) (n : String) :
    (getOrCreateAuthor s n).2.loans = s.loans := by
  unfold getOrCreateAuthor; split <;> rfl

theorem getOrCreateAuthor_nextBookId (s : LibraryState) (n : String) :
    (getOrCreateAuthor s n).2.nextBookId = s.nextBookId := by
  unfold getOrCreateAuthor; split <;> rfl

theorem getOrCreateAuthor_nextLoanId (s : LibraryState) (n : String) :
    (getOrCreateAuthor s n).2.nextLoanId = s.nextLoanId := by
  unfold getOrCreateAuthor; split <;> rfl

/-- Member registration never touches books or loans, so it preserves the
keys and the Book/Loan invariant. -/
theorem good_register (s : LibraryState) (hs : Good s)
    (fname lname email phone : String) :
    Good (register_member_view s fname lname email phone).2 := by
  unfold register_member_view
  split
  · exact hs
  · exact hs

/-- Adding a book creates it `'Available'` with a fresh id that no loan can
reference, so it preserves the keys and the Book/Loan invariant. -/
theorem good_addBook (s : LibraryState) (hs : Good s)
    (title authorName isbn genre : String) :
    Good (add_book_view s title authorName isbn genre).2 := by
  obtain ⟨⟨h1, h2, h3, h4, h5⟩, hinv⟩ := hs
  have hb := getOrCreateAuthor_books s authorName
  have hl := getOrCreateAuthor_loans s authorName
  have hnb := getOrCreateAuthor_nextBookId s authorName
  have hnl := getOrCreateAuthor_nextLoanId s authorName
  simp only [add_book_view]
  split
  · -- duplicate ISBN: only the author table may have grown
    refine ⟨⟨?_, ?_, ?_, ?_, ?_⟩, ?_⟩
    · rw [hb]; exact h1
    · rw [hl]; exact h2
    · rw [hb, hnb]; exact h3
    · rw [hl, hnl]; exact h4
    · rw [hl, hnb]; exact h5
    · intro b hbm
      rw [hb] at hbm
      have hco : countOpen (getOrCreateAuthor s authorName).2 b.bookid
          = countOpen s b.bookid := countOpen_eq_of_loans_eq hl b.bookid
      rw [hco]
      exact hinv b hbm
  · -- fresh book appended with status 'Available'
    refine ⟨⟨?_, ?_, ?_, ?_, ?_⟩, ?_⟩
    · show ((_ ++ [_]).map Book.bookid).Nodup
      rw [List.map_append, List.nodup_append]
      refine ⟨by rw [hb]; exact h1, List.nodup_singleton _, ?_⟩
      intro a ha hmem
      rw [hb] at ha
      obtain ⟨bk, hbk, rfl⟩ := List.mem_map.mp ha
      simp only [List.map_cons, List.map_nil, List.mem_singleton] at hmem
      rw [hnb] at hmem
      exact absurd hmem (Nat.ne_of_lt (h3 bk hbk))
    · show ((getOrCreateAuthor s authorName).2.loans.map Loan.loanid).Nodup
      rw [hl]; exact h2
    · intro b hbm
      rcases List.mem_append.mp hbm with hbm' | hbm'
      · rw [hb] at hbm'
        show b.bookid < (getOrCreateAuthor s authorName).2.nextBookId + 1
        rw [hnb]
        exact Nat.lt_succ_of_lt (h3 b hbm')
      · simp only [List.mem_singleton] at hbm'
        subst hbm'
        exact Nat.lt_succ_self _
    · intro l hlm
      rw [hl] at hlm
      show l.loanid < (getOrCreateAuthor s authorName).2.nextLoanId
      rw [hnl]
      exact h4 l hlm
    · intro l hlm
      rw [hl] at hlm
      show l.bookid < (getOrCreateAuthor s authorName).2.nextBookId + 1
      rw [hnb]
      exact Nat.lt_succ_of_lt (h5 l hlm)
    · intro b hbm
      have hlz : ({ (getOrCreateAuthor s authorName).2 with
          books := (getOrCreateAuthor s authorName).2.books ++
            [{ bookid := (getOrCreateAuthor s authorName).2.nextBookId,
               title := title, author := some (getOrCreateAuthor s authorName).1,
               isbn := isbn, genre := genre, status := "Available" }],
          nextBookId := (getOrCreateAuthor s authorName).2.nextBookId + 1 } :
            LibraryState).loans = s.loans := hl
      rcases List.mem_append.mp hbm with hbm' | hbm'
      · rw [hb] at hbm'
        rw [countOpen_eq_of_loans_eq hlz b.bookid]
        exact hinv b hbm'
      · simp only [List.mem_singleton] at hbm'
        subst hbm'
        rw [countOpen_eq_of_loans_eq hlz _]
        have hzero : countOpen s ((getOrCreateAuthor s authorName).2.nextBookId) = 0 := by
          unfold countOpen
          rw [List.countP_eq_zero]
          intro l hlm
          unfold openP
          rw [hnb]
          simp only [Bool.and_eq_true, beq_iff_eq, not_and]
          intro heq
          exact absurd heq (Nat.ne_of_lt (h5 l hlm))
        rw [hzero]
        exact ⟨by simp, by simp⟩

theorem checkout_view_noMember {s : LibraryState} {memberId bookId today : Nat}
    (hm : findMember s memberId = none) :
    checkout_view s memberId bookId today = (.memberNotFound, s) := by
  unfold checkout_view
  rw [hm]

theorem checkout_view_noBook {s : LibraryState} {memberId bookId today : Nat}
    {member : Member} (hm : findMember s memberId = some member)
    (hb : findBook s bookId = none) :
    checkout_view s memberId bookId today = (.bookNotFound, s) := by
  unfold checkout_view
  rw [hm, hb]

theorem checkout_view_notAvailable {s : LibraryState} {memberId bookId today : Nat}
    {member : Member} {book : Book} (hm : findMember s memberId = some member)
    (hb : findBook s bookId = some book) (hav : book.status ≠ "Available") :
    checkout_view s memberId bookId today = (.notAvailable, s) := by
  unfold checkout_view
  rw [hm, hb]
  simp [hav]

theorem checkout_view_success {s : LibraryState} {memberId bookId today : Nat}
    {member : Member} {book : Book} (hm : findMember s memberId = some member)
    (hb : findBook s bookId = some book) (hav : book.status = "Available") :
    checkout_view s memberId bookId today =
      (.success,
       { s with
         loans := s.loans ++
           [{ loanid := s.nextLoanId, bookid := book.bookid,
              memberid := member.memberid, checkoutdate := today,
              duedate := today + 14, returndate := none }],
         books := s.books.map (fun b =>
           if b.bookid == book.bookid then { b with status := "Checked Out" } else b),
         nextLoanId := s.nextLoanId + 1 }) := by
  unfold checkout_view
  rw [hm, hb]
  simp [hav]

theorem return_view_noBook {s : LibraryState} {bookId today : Nat}
    (hb : findBook s bookId = none) :
    return_view s bookId today = (.bookNotFound, s) := by
  unfold return_view
  rw [hb]

theorem return_view_noLoan {s : LibraryState} {bookId today : Nat} {book : Book}
    (hb : findBook s bookId = some book)
    (hl : s.loans.find? (openP book.bookid) = none) :
    return_view s bookId today = (.noActiveLoan, s) := by
  unfold return_view
  rw [hb]
  dsimp only
  rw [hl]

theorem return_view_onTime {s : LibraryState} {bookId today : Nat} {book : Book}
    {loan : Loan} (hb : findBook s bookId = some book)
    (hl : s.loans.find? (openP book.bookid) = some loan)
    (hd : ¬ loan.duedate < today) :
    return_view s bookId today =
      (.onTime,
       { s with
         loans := s.loans.map (fun l =>
           if l.loanid == loan.loanid then { l with returndate := some today } else l),
         books := s.books.map (fun b =>
           if b.bookid == book.bookid then { b with status := "Available" } else b) }) := by
  unfold return_view
  rw [hb]
  dsimp only
  rw [hl]
  simp [hd]

theorem return_view_late {s : LibraryState} {bookId today : Nat} {book : Book}
    {loan : Loan} (hb : findBook s bookId = some book)
    (hl : s.loans.find? (openP book.bookid) = some loan)
    (hd : loan.duedate < today) :
    return_view s bookId today =
      (.late (today - loan.duedate),
       { s with
         loans := s.loans.map (fun l =>
           if l.loanid == loan.loanid then { l with returndate := some today } else l),
         books := s.books.map (fun b =>
           if b.bookid == book.bookid then { b with status := "Available" } else b),
         fines := s.fines ++
           [{ fineid := s.nextFineId, loanid := loan.loanid,
              memberid := loan.memberid,
              amountCents := (today - loan.duedate) * 100, status := "Unpaid" }],
         nextFineId := s.nextFineId + 1 }) := by
  unfold return_view
  rw [hb]
  dsimp only
  rw [hl]
  simp [hd]

/-- Checkout only succeeds on an `'Available'` book, which by the invariant
has no open loan; creating the loan and flipping the status re-establishes
the invariant, and the fresh loan id keeps the keys well-formed. -/
theorem good_checkout (s : LibraryState) (hs : Good s)
    (memberId bookId today : Nat) :
    Good (checkout_view s memberId bookId today).2 := by
  obtain ⟨⟨h1, h2, h3, h4, h5⟩, hinv⟩ := hs
  cases hm : findMember s memberId with
  | none => rw [checkout_view_noMember hm]; exact ⟨⟨h1, h2, h3, h4, h5⟩, hinv⟩
  | some member =>
  cases hbk : findBook s bookId with
  | none => rw [checkout_view_noBook hm hbk]; exact ⟨⟨h1, h2, h3, h4, h5⟩, hinv⟩
  | some book =>
  by_cases hav : book.status = "Available"
  case neg => rw [checkout_view_notAvailable hm hbk hav]; exact ⟨⟨h1, h2, h3, h4, h5⟩, hinv⟩
  case pos =>
  rw [checkout_view_success hm hbk hav]
  have hbmem : book ∈ s.books := List.mem_of_find?_eq_some hbk
  have hcnt0 : countOpen s book.bookid = 0 := by
    by_contra hne
    have hckd : book.status = "Checked Out" := (hinv book hbmem).1.mpr hne
    rw [hav] at hckd
    exact absurd hckd (by decide)
  refine ⟨⟨?_, ?_, ?_, ?_, ?_⟩, ?_⟩
  · show ((s.books.map fun b =>
        if b.bookid == book.bookid then { b with status := "Checked Out" } else b).map
        Book.bookid).Nodup
    rw [List.map_map]
    rw [List.map_congr_left (g := Book.bookid) (fun b _ => by dsimp only [Function.comp]; split <;> rfl)]
    exact h1
  · show ((s.loans ++ [_]).map Loan.loanid).Nodup
    rw [List.map_append, List.nodup_append]
    refine ⟨h2, List.nodup_singleton _, ?_⟩
    intro a ha hmem
    obtain ⟨l, hlm, rfl⟩ := List.mem_map.mp ha
    simp only [List.map_cons, List.map_nil, List.mem_singleton] at hmem
    exact absurd hmem (Nat.ne_of_lt (h4 l hlm))
  · intro b hbm
    obtain ⟨b0, hb0, rfl⟩ := List.mem_map.mp hbm
    have hid : (if b0.bookid == book.bookid then
        { b0 with status := "Checked Out" } else b0).bookid = b0.bookid := by
      split <;> rfl
    show _ < s.nextBookId
    rw [hid]
    exact h3 b0 hb0
  · intro l hlm
    rcases List.mem_append.mp hlm with h | h
    · exact Nat.lt_succ_of_lt (h4 l h)
    · simp only [List.mem_singleton] at h
      subst h
      exact Nat.lt_succ_self _
  · intro l hlm
    rcases List.mem_append.mp hlm with h | h
    · exact h5 l h
    · simp only [List.mem_singleton] at h
      subst h
      exact h3 book hbmem
  · intro b' hbm'
    obtain ⟨b0, hb0, rfl⟩ := List.mem_map.mp hbm'
    have hco : ∀ bid, countOpen
        { s with
          loans := s.loans ++
            [{ loanid := s.nextLoanId, bookid := book.bookid,
               memberid := member.memberid, checkoutdate := today,
               duedate := today + 14, returndate := none }],
          books := s.books.map (fun b =>
            if b.bookid == book.bookid then { b with status := "Checked Out" } else b),
          nextLoanId := s.nextLoanId + 1 } bid
        = countOpen s bid + (if book.bookid == bid then 1 else 0) := by
      intro bid
      unfold countOpen openP
      rw [List.countP_append, List.countP_cons, List.countP_nil]
      simp
    by_cases hcase : b0.bookid = book.bookid
    · have hb0eq : b0 = book := List.inj_on_of_nodup_map h1 hb0 hbmem hcase
      subst hb0eq
      have hif : (if b0.bookid == b0.bookid then
          { b0 with status := "Checked Out" } else b0) = { b0 with status := "Checked Out" } := by
        simp
      rw [hif, hco, hcnt0]
      simp
    · have hif : (if b0.bookid == book.bookid then
          { b0 with status := "Checked Out" } else b0) = b0 := by
        simp [hcase]
      rw [hif, hco]
      have hbeq : (book.bookid == b0.bookid) = false := by
        simp [Ne.symm hcase]
      rw [hbeq]
      simp only [Bool.false_eq_true, if_false, Nat.add_zero]
      exact hinv b0 hb0

theorem countP_congr_mem {α : Type} {l : List α} {p q : α → Bool}
    (h : ∀ a ∈ l, p a = q a) : l.countP p = l.countP q := by
  induction l with
  | nil => rfl
  | cons x xs ih =>
    rw [List.countP_cons, List.countP_cons, h x (List.mem_cons_self x xs),
      ih (fun a ha => h a (List.mem_cons_of_mem _ ha))]


/-- Return closes the unique open loan of the book and flips its status to
`'Available'`; the possible fine row touches neither books nor loans, so the
keys and the Book/Loan invariant are preserved. -/
theorem good_return (s : LibraryState) (hs : Good s) (bookId today : Nat) :
    Good (return_view s bookId today).2 := by
  obtain ⟨⟨h1, h2, h3, h4, h5⟩, hinv⟩ := hs
  cases hbk : findBook s bookId with
  | none => rw [return_view_noBook hbk]; exact ⟨⟨h1, h2, h3, h4, h5⟩, hinv⟩
  | some book =>
  cases hfl : s.loans.find? (openP book.bookid) with
  | none => rw [return_view_noLoan hbk hfl]; exact ⟨⟨h1, h2, h3, h4, h5⟩, hinv⟩
  | some loan =>
  have hbmem : book ∈ s.books := List.mem_of_find?_eq_some hbk
  have hlmem : loan ∈ s.loans := List.mem_of_find?_eq_some hfl
  have hlp : openP book.bookid loan = true := List.find?_some hfl
  have hlbid : loan.bookid = book.bookid := by
    have h := hlp
    unfold openP at h
    rw [Bool.and_eq_true] at h
    exact beq_iff_eq.mp h.1
  have hcnt := (hinv book hbmem).2
  have hfother : ∀ l ∈ s.loans, l ≠ loan →
      (if l.loanid == loan.loanid then { l with returndate := some today } else l) = l := by
    intro l hl hne
    have hne' : (l.loanid == loan.loanid) = false := by
      rw [beq_eq_false_iff_ne]
      intro heq
      exact hne (List.inj_on_of_nodup_map h2 hl hlmem heq)
    rw [hne']
    simp
  have hzero : s.loans.countP (fun l => openP book.bookid
      (if l.loanid == loan.loanid then { l with returndate := some today } else l)) = 0 := by
    rw [List.countP_eq_zero]
    intro l hl
    by_cases hne : l = loan
    · subst hne
      simp [openP]
    · rw [hfother l hl hne]
      intro hopen
      have h2le := two_le_countP hl hlmem hne hopen hlp
      have hcnt2 : s.loans.countP (openP book.bookid) ≤ 1 := hcnt
      omega
  have hsame : ∀ bid, bid ≠ book.bookid →
      s.loans.countP (fun l => openP bid
        (if l.loanid == loan.loanid then { l with returndate := some today } else l))
      = s.loans.countP (openP bid) := by
    intro bid hbid
    apply countP_congr_mem
    intro l hl
    by_cases hne : l = loan
    · subst hne
      have hb1 : (book.bookid == bid) = false := beq_eq_false_iff_ne.mpr (Ne.symm hbid)
      simp [openP, hlbid, hb1]
    · rw [hfother l hl hne]
  -- the KeysOk components, shared by the on-time and late cases
  have hA : ((s.books.map (fun b =>
      if b.bookid == book.bookid then { b with status := "Available" } else b)).map
      Book.bookid).Nodup := by
    rw [List.map_map]
    rw [List.map_congr_left (g := Book.bookid)
      (fun b _ => by dsimp only [Function.comp]; split <;> rfl)]
    exact h1
  have hB : ((s.loans.map (fun l =>
      if l.loanid == loan.loanid then { l with returndate := some today } else l)).map
      Loan.loanid).Nodup := by
    rw [List.map_map]
    rw [List.map_congr_left (g := Loan.loanid)
      (fun l _ => by dsimp only [Function.comp]; split <;> rfl)]
    exact h2
  have hC : ∀ b ∈ s.books.map (fun b =>
      if b.bookid == book.bookid then { b with status := "Available" } else b),
      b.bookid < s.nextBookId := by
    intro b hbm
    obtain ⟨b0, hb0, rfl⟩ := List.mem_map.mp hbm
    have hid : (if b0.bookid == book.bookid then
        { b0 with status := "Available" } else b0).bookid = b0.bookid := by
      split <;> rfl
    rw [hid]
    exact h3 b0 hb0
  have hD : ∀ l ∈ s.loans.map (fun l =>
      if l.loanid == loan.loanid then { l with returndate := some today } else l),
      l.loanid < s.nextLoanId := by
    intro l hlm
    obtain ⟨l0, hl0, rfl⟩ := List.mem_map.mp hlm
    have hid : (if l0.loanid == loan.loanid then
        { l0 with returndate := some today } else l0).loanid = l0.loanid := by
      split <;> rfl
    rw [hid]
    exact h4 l0 hl0
  have hE : ∀ l ∈ s.loans.map (fun l =>
      if l.loanid == loan.loanid then { l with returndate := some today } else l),
      l.bookid < s.nextBookId := by
    intro l hlm
    obtain ⟨l0, hl0, rfl⟩ := List.mem_map.mp hlm
    have hid : (if l0.loanid == loan.loanid then
        { l0 with returndate := some today } else l0).bookid = l0.bookid := by
      split <;> rfl
    rw [hid]
    exact h5 l0 hl0
  -- the invariant for the updated books over the updated loans
  have hF : ∀ b' ∈ s.books.map (fun b =>
      if b.bookid == book.bookid then { b with status := "Available" } else b),
      (b'.status = "Checked Out" ↔
        (s.loans.map (fun l =>
          if l.loanid == loan.loanid then { l with returndate := some today } else l)).countP
          (openP b'.bookid) ≠ 0) ∧
      (s.loans.map (fun l =>
        if l.loanid == loan.loanid then { l with returndate := some today } else l)).countP
        (openP b'.bookid) ≤ 1 := by
    intro b' hbm'
    obtain ⟨b0, hb0, rfl⟩ := List.mem_map.mp hbm'
    rw [List.countP_map]
    by_cases hcase : b0.bookid = book.bookid
    · have hb0eq : b0 = book := List.inj_on_of_nodup_map h1 hb0 hbmem hcase
      subst hb0eq
      have hif : (if b0.bookid == b0.bookid then
          { b0 with status := "Available" } else b0) = { b0 with status := "Available" } := by
        simp
      rw [hif]
      have hproj : ({ b0 with status := "Available" } : Book).bookid = b0.bookid := rfl
      rw [hproj]
      simp only [Function.comp_def]
      rw [hzero]
      simp
    · have hif : (if b0.bookid == book.bookid then
          { b0 with status := "Available" } else b0) = b0 := by
        simp [hcase]
      rw [hif]
      simp only [Function.comp_def]
      rw [hsame b0.bookid hcase]
      exact hinv b0 hb0
  by_cases hd : loan.duedate < today
  · rw [return_view_late hbk hfl hd]
    exact ⟨⟨hA, hB, hC, hD, hE⟩, hF⟩
  · rw [return_view_onTime hbk hfl hd]
    exact ⟨⟨hA, hB, hC, hD, hE⟩, hF⟩

theorem good_applyOp_of_not_edit (s : LibraryState) (hs : Good s) (op : Op)
    (h : op.isEdit = false) : Good (applyOp s op) := by
  cases op with
  | register fname lname email phone => exact good_register s hs fname lname email phone
  | addBook title authorName isbn genre => exact good_addBook s hs title authorName isbn genre
  | checkout memberId bookId today => exact good_checkout s hs memberId bookId today
  | ret bookId today => exact good_return s hs bookId today
  | edit bookId title authorName isbn genre status => simp [Op.isEdit] at h

theorem good_foldl (ops : List Op) (s : LibraryState) (hs : Good s)
    (h : ∀ op ∈ ops, op.isEdit = false) : Good (ops.foldl applyOp s) := by
  induction ops generalizing s with
  | nil => exact hs
  | cons op rest ih =>
    rw [List.foldl_cons]
    exact ih (applyOp s op)
      (good_applyOp_of_not_edit s hs op (h op (List.mem_cons_self op rest)))
      (fun o ho => h o (List.mem_cons_of_mem op ho))

/-- C1 (counterexample): the claim as stated is false — the book-edit form
writes a caller-supplied status, so a trace that registers a member, adds a
book, checks it out and then edits the book back to `'Available'` reaches a
state where the book has an open loan (return date null) yet its status is
not `'Checked Out'`, violating the claimed invariant. -/
theorem C1_counterexample :
    ¬ StatusInv (run
      [Op.register "Ann" "Lee" "ann@example.com" "555-0101",
       Op.addBook "Dune" "Frank Herbert" "9780441013593" "SF",
       Op.checkout 1 1 100,
       Op.edit 1 "Dune" "Frank Herbert" "9780441013593" "SF" "Available"]) := by
  decide

/-- C1 (amended): over every trace of workflow operations that never uses
the book-edit form — member registration, book add, checkout and return,
starting from the empty store — every reachable state satisfies the
invariant: a book's status is `'Checked Out'` exactly when it has an open
Loan (return date null), and no book ever has two open Loans. The book-edit
operation is excluded because it writes an arbitrary caller-supplied status
(see the counterexample). -/
theorem C1_invariant_without_edit (ops : List Op)
    (h : ∀ op ∈ ops, op.isEdit = false) : StatusInv (run ops) :=
  (good_foldl ops initState good_initState h).2

/-- C1 (witness): the amended invariant evaluated on a concrete
register/add/checkout/return trace. -/
theorem C1_witness :
    StatusInv (run
      [Op.register "Ann" "Lee" "ann@example.com" "555-0101",
       Op.addBook "Dune" "Frank Herbert" "9780441013593" "SF",
       Op.checkout 1 1 100,
       Op.ret 1 120]) :=
  C1_invariant_without_edit
    [Op.register "Ann" "Lee" "ann@example.com" "555-0101",
     Op.addBook "Dune" "Frank Herbert" "9780441013593" "SF",
     Op.checkout 1 1 100,
     Op.ret 1 120]
    (by simp [Op.isEdit])

/-- Concrete member row used by the witnesses. -/
def demoMember : Member :=
  { memberid := 1, firstname := "Ann", lastname := "Lee",
    email := "ann@example.com", phonenumber := "555-0101",
    membershipstatus := "Active" }

/-- Concrete author row used by the witnesses. -/
def demoAuthor : Author := { authorid := 1, authorname := "Frank Herbert" }

/-- Concrete checked-out book row used by the witnesses. -/
def demoBookOut : Book :=
  { bookid := 1, title := "Dune", author := some 1, isbn := "9780441013593",
    genre := "SF", status := "Checked Out" }

/-- Concrete available book row used by the witnesses. -/
def demoBookAvail : Book :=
  { bookid := 1, title := "Dune", author := some 1, isbn := "9780441013593",
    genre := "SF", status := "Available" }

/-- Concrete open loan row (due day 14) used by the witnesses. -/
def demoOpenLoan : Loan :=
  { loanid := 1, bookid := 1, memberid := 1, checkoutdate := 0, duedate := 14,
    returndate := none }

/-- Store with one checked-out book and its open loan. -/
def demoLoanState : LibraryState :=
  { authors := [demoAuthor], books := [demoBookOut], members := [demoMember],
    loans := [demoOpenLoan], fines := [], nextAuthorId := 2, nextBookId := 2,
    nextMemberId := 2, nextLoanId := 2, nextFineId := 1 }

/-- Store with one available book and no loans. -/
def demoAvailState : LibraryState :=
  { authors := [demoAuthor], books := [demoBookAvail], members := [demoMember],
    loans := [], fines := [], nextAuthorId := 2, nextBookId := 2,
    nextMemberId := 2, nextLoanId := 2, nextFineId := 1 }

/-- C2 (confirmed): when a book with an open loan is returned on day
`today` with `duedate ≤ today` — that is, `d = today - duedate ≥ 0` whole
calendar days after the due date — the fine table gains a row exactly when
`d > 0`, that row's amount is exactly `d × 1.00` dollars (`d * 100` cents)
with status `'Unpaid'`, and returning exactly on the due date (`d = 0`)
creates no fine. -/
theorem C2_fine_amount_law (s : LibraryState) (bookId today : Nat)
    (book : Book) (loan : Loan)
    (hb : findBook s bookId = some book)
    (hl : s.loans.find? (openP book.bookid) = some loan)
    (_hle : loan.duedate ≤ today) :
    (return_view s bookId today).2.fines =
      s.fines ++
        (if 0 < today - loan.duedate then
          [{ fineid := s.nextFineId, loanid := loan.loanid,
             memberid := loan.memberid,
             amountCents := (today - loan.duedate) * 100, status := "Unpaid" }]
         else []) := by
  by_cases hd : loan.duedate < today
  · rw [return_view_late hb hl hd]
    have hpos : 0 < today - loan.duedate := Nat.sub_pos_of_lt hd
    simp [hpos]
  · rw [return_view_onTime hb hl hd]
    have hz : today - loan.duedate = 0 := Nat.sub_eq_zero_of_le (Nat.le_of_not_lt hd)
    simp [hz]

/-- C2 (witness): returning the demo book six days late (day 20, due day
14) appends exactly one Unpaid fine of 600 cents ($6.00). -/
theorem C2_witness :
    (return_view demoLoanState 1 20).2.fines =
      demoLoanState.fines ++
        (if 0 < 20 - demoOpenLoan.duedate then
          [{ fineid := demoLoanState.nextFineId, loanid := demoOpenLoan.loanid,
             memberid := demoOpenLoan.memberid,
             amountCents := (20 - demoOpenLoan.duedate) * 100, status := "Unpaid" }]
         else []) :=
  C2_fine_amount_law demoLoanState 1 20 demoBookOut demoOpenLoan rfl rfl
    (by decide)

/-- C3 (confirmed): every checkout failure aborts with no state change — an
unresolvable member id reports the member as missing, an unresolvable book
id (with the member resolved first, as the code checks in that order)
reports the book as missing, and a resolvable book whose status is not
`'Available'` reports the invalid state; in each case the returned store is
exactly the input store, so no Loan is created and no status is written. -/
theorem C3_checkout_errors (s : LibraryState) (memberId bookId today : Nat) :
    (findMember s memberId = none →
      checkout_view s memberId bookId today = (.memberNotFound, s)) ∧
    (∀ member, findMember s memberId = some member →
      findBook s bookId = none →
      checkout_view s memberId bookId today = (.bookNotFound, s)) ∧
    (∀ member book, findMember s memberId = some member →
      findBook s bookId = some book → book.status ≠ "Available" →
      checkout_view s memberId bookId today = (.notAvailable, s)) :=
  ⟨fun h => checkout_view_noMember h,
   fun _ hm hb => checkout_view_noBook hm hb,
   fun _ _ hm hb hav => checkout_view_notAvailable hm hb hav⟩

/-- C3 (witness): the three failure modes on concrete stores — unknown
member 99, unknown book 99, and the checked-out demo book — each return the
store unchanged. -/
theorem C3_witness :
    checkout_view demoLoanState 99 1 50 = (.memberNotFound, demoLoanState) ∧
    checkout_view demoLoanState 1 99 50 = (.bookNotFound, demoLoanState) ∧
    checkout_view demoLoanState 1 1 50 = (.notAvailable, demoLoanState) :=
  ⟨(C3_checkout_errors demoLoanState 99 1 50).1 rfl,
   (C3_checkout_errors demoLoanState 1 99 50).2.1 demoMember rfl rfl,
   (C3_checkout_errors demoLoanState 1 1 50).2.2 demoMember demoBookOut rfl rfl
     (by decide)⟩

theorem find?_map_pred {α : Type} {p : α → Bool} {f : α → α}
    (hf : ∀ a, p (f a) = p a) (l : List α) :
    (l.map f).find? p = (l.find? p).map f := by
  rw [List.find?_map]
  have h : (p ∘ f) = p := funext hf
  rw [h]

/-- C4 (confirmed): a checkout of an existing member and an existing
`'Available'` book succeeds, appends exactly one new Loan whose checkout
date is the request day, whose due date is that day plus 14, and whose
return date is null, and rewrites that book's status to `'Checked Out'`. -/
theorem C4_checkout_success_effect (s : LibraryState)
    (memberId bookId today : Nat) (member : Member) (book : Book)
    (hm : findMember s memberId = some member)
    (hb : findBook s bookId = some book)
    (hav : book.status = "Available") :
    (checkout_view s memberId bookId today).1 = .success ∧
    (checkout_view s memberId bookId today).2.loans =
      s.loans ++
        [{ loanid := s.nextLoanId, bookid := book.bookid,
           memberid := member.memberid, checkoutdate := today,
           duedate := today + 14, returndate := none }] ∧
    findBook (checkout_view s memberId bookId today).2 bookId =
      some { book with status := "Checked Out" } := by
  rw [checkout_view_success hm hb hav]
  refine ⟨rfl, rfl, ?_⟩
  show (s.books.map fun b =>
      if b.bookid == book.bookid then { b with status := "Checked Out" } else b).find?
      (fun b => b.bookid == bookId) = some { book with status := "Checked Out" }
  rw [find?_map_pred (fun b => by split <;> rfl) s.books]
  have hb2 : s.books.find? (fun b => b.bookid == bookId) = some book := hb
  rw [hb2]
  simp

/-- C4 (witness): checking the available demo book out to the demo member
on day 7 creates the loan (due day 21) and flips the book to
`'Checked Out'`. -/
theorem C4_witness :
    (checkout_view demoAvailState 1 1 7).1 = .success ∧
    (checkout_view demoAvailState 1 1 7).2.loans =
      demoAvailState.loans ++
        [{ loanid := demoAvailState.nextLoanId, bookid := demoBookAvail.bookid,
           memberid := demoMember.memberid, checkoutdate := 7,
           duedate := 7 + 14, returndate := none }] ∧
    findBook (checkout_view demoAvailState 1 1 7).2 1 =
      some { demoBookAvail with status := "Checked Out" } :=
  C4_checkout_success_effect demoAvailState 1 1 7 demoMember demoBookAvail
    rfl rfl rfl

/-- C5 (confirmed): for a return request on an existing book (with distinct
loan primary keys, as the database guarantees): when an open loan exists,
the first open loan — and only that row — gets its return date set to the
request day and the book's status becomes `'Available'`; when no open loan
exists, the view reports the missing active loan and returns the store
unchanged. -/
theorem C5_return_effect (s : LibraryState) (bookId today : Nat) (book : Book)
    (hb : findBook s bookId = some book)
    (hnd : (s.loans.map Loan.loanid).Nodup) :
    (∀ loan, s.loans.find? (openP book.bookid) = some loan →
      ∃ l₁ l₂, s.loans = l₁ ++ loan :: l₂ ∧ loan.returndate = none ∧
        (return_view s bookId today).2.loans =
          l₁ ++ { loan with returndate := some today } :: l₂ ∧
        findBook (return_view s bookId today).2 bookId =
          some { book with status := "Available" }) ∧
    (s.loans.find? (openP book.bookid) = none →
      return_view s bookId today = (.noActiveLoan, s)) := by
  constructor
  · intro loan hfl
    obtain ⟨l₁, l₂, hsplit, hfail⟩ := find?_split hfl
    have hlp : openP book.bookid loan = true := List.find?_some hfl
    have hlopen : loan.returndate = none := by
      unfold openP at hlp
      rw [Bool.and_eq_true] at hlp
      exact Option.isNone_iff_eq_none.mp hlp.2
    have hnd' := hnd
    rw [hsplit, List.map_append, List.map_cons, List.nodup_append] at hnd'
    obtain ⟨nd1, nd2, disj⟩ := hnd'
    have hne1 : ∀ x ∈ l₁, (x.loanid == loan.loanid) = false := by
      intro x hx
      rw [beq_eq_false_iff_ne]
      intro he
      exact disj (List.mem_map_of_mem Loan.loanid hx)
        (by rw [he]; exact List.mem_cons_self _ _)
    have hne2 : ∀ x ∈ l₂, (x.loanid == loan.loanid) = false := by
      intro x hx
      rw [beq_eq_false_iff_ne]
      intro he
      exact (List.nodup_cons.mp nd2).1
        (by rw [← he]; exact List.mem_map_of_mem Loan.loanid hx)
    have hmap : s.loans.map (fun l =>
        if l.loanid == loan.loanid then { l with returndate := some today } else l)
        = l₁ ++ { loan with returndate := some today } :: l₂ := by
      rw [hsplit, List.map_append, List.map_cons]
      congr 1
      · have hpt : ∀ x ∈ l₁, (if x.loanid == loan.loanid then
            { x with returndate := some today } else x) = (fun a => a) x := by
          intro x hx
          rw [hne1 x hx]
          simp
        exact (List.map_congr_left hpt).trans (List.map_id' l₁)
      · congr 1
        · simp
        · have hpt : ∀ x ∈ l₂, (if x.loanid == loan.loanid then
              { x with returndate := some today } else x) = (fun a => a) x := by
            intro x hx
            rw [hne2 x hx]
            simp
          exact (List.map_congr_left hpt).trans (List.map_id' l₂)
    have hfind : (s.books.map (fun b =>
        if b.bookid == book.bookid then { b with status := "Available" } else b)).find?
        (fun b => b.bookid == bookId) = some { book with status := "Available" } := by
      rw [find?_map_pred (fun b => by split <;> rfl) s.books]
      have hb2 : s.books.find? (fun b => b.bookid == bookId) = some book := hb
      rw [hb2]
      simp
    by_cases hd : loan.duedate < today
    · rw [return_view_late hb hfl hd]
      exact ⟨l₁, l₂, hsplit, hlopen, hmap, hfind⟩
    · rw [return_view_onTime hb hfl hd]
      exact ⟨l₁, l₂, hsplit, hlopen, hmap, hfind⟩
  · intro h
    exact return_view_noLoan hb h

/-- C5 (witness): returning the demo book on day 20 closes its single open
loan and makes the book `'Available'` again, and a return on the loan-free
demo store fails with no mutation. -/
theorem C5_witness :
    (∃ l₁ l₂, demoLoanState.loans = l₁ ++ demoOpenLoan :: l₂ ∧
      demoOpenLoan.returndate = none ∧
      (return_view demoLoanState 1 20).2.loans =
        l₁ ++ { demoOpenLoan with returndate := some 20 } :: l₂ ∧
      findBook (return_view demoLoanState 1 20).2 1 =
        some { demoBookOut with status := "Available" }) ∧
    return_view demoAvailState 1 20 = (.noActiveLoan, demoAvailState) :=
  ⟨((C5_return_effect demoLoanState 1 20 demoBookOut rfl
      (by simp [demoLoanState, demoOpenLoan])).1 demoOpenLoan rfl),
   ((C5_return_effect demoAvailState 1 20 demoBookAvail rfl
      (by simp [demoAvailState])).2 rfl)⟩

theorem ccs_noFine {s : LibraryState} {actor : Actor} {fineId : Nat}
    (hf : findFine s fineId = none) :
    create_checkout_session s actor fineId = .fineNotFound := by
  unfold create_checkout_session
  rw [hf]

theorem ccs_staff {s : LibraryState} {actor : Actor} {fineId : Nat} {fine : Fine}
    (hf : findFine s fineId = some fine) (hstaff : actor.isStaff = true) :
    create_checkout_session s actor fineId = sessionFor s fine := by
  unfold create_checkout_session
  rw [hf]
  dsimp only
  rw [hstaff]
  simp

theorem ccs_nonstaff_noMember {s : LibraryState} {actor : Actor} {fineId : Nat}
    {fine : Fine} (hf : findFine s fineId = some fine)
    (hstaff : actor.isStaff = false) (hm : findMember s fine.memberid = none) :
    create_checkout_session s actor fineId = .refError := by
  unfold create_checkout_session
  rw [hf]
  dsimp only
  rw [hstaff, hm]
  rfl

theorem ccs_unauthorized {s : LibraryState} {actor : Actor} {fineId : Nat}
    {fine : Fine} {m : Member} (hf : findFine s fineId = some fine)
    (hstaff : actor.isStaff = false) (hm : findMember s fine.memberid = some m)
    (hne : m.email ≠ actor.email) :
    create_checkout_session s actor fineId = .unauthorized := by
  unfold create_checkout_session
  rw [hf]
  dsimp only
  rw [hstaff, hm]
  dsimp only
  rw [if_pos (bne_iff_ne.mpr hne)]
  rfl

theorem ccs_owner {s : LibraryState} {actor : Actor} {fineId : Nat}
    {fine : Fine} {m : Member} (hf : findFine s fineId = some fine)
    (hstaff : actor.isStaff = false) (hm : findMember s fine.memberid = some m)
    (he : m.email = actor.email) :
    create_checkout_session s actor fineId = sessionFor s fine := by
  unfold create_checkout_session
  rw [hf]
  dsimp only
  rw [hstaff, hm]
  simp [he]

/-- C6 (confirmed): the Stripe session is created only when the fine
resolves and the actor is staff or owns the fine by email identity; an
unresolvable fine id reports it missing with no gateway call, and a
resolved fine requested by a non-staff actor whose email differs from the
owning member's email is refused with no gateway call. -/
theorem C6_settlement_authorization (s : LibraryState) (actor : Actor)
    (fineId : Nat) :
    (∀ amount description,
      create_checkout_session s actor fineId = .redirectToGateway amount description →
      ∃ fine, findFine s fineId = some fine ∧
        (actor.isStaff = true ∨
          ∃ m, findMember s fine.memberid = some m ∧ m.email = actor.email)) ∧
    (findFine s fineId = none →
      create_checkout_session s actor fineId = .fineNotFound) ∧
    (∀ fine m, findFine s fineId = some fine →
      findMember s fine.memberid = some m →
      actor.isStaff = false → m.email ≠ actor.email →
      create_checkout_session s actor fineId = .unauthorized) := by
  refine ⟨?_, fun hf => ccs_noFine hf, fun fine m hf hm hst hne => ccs_unauthorized hf hst hm hne⟩
  intro amount description h
  cases hf : findFine s fineId with
  | none =>
    rw [ccs_noFine hf] at h
    simp at h
  | some fine =>
    refine ⟨fine, rfl, ?_⟩
    cases hstaff : actor.isStaff with
    | true => exact Or.inl rfl
    | false =>
      cases hm : findMember s fine.memberid with
      | none =>
        rw [ccs_nonstaff_noMember hf hstaff hm] at h
        simp at h
      | some m =>
        by_cases he : m.email = actor.email
        · exact Or.inr ⟨m, rfl, he⟩
        · rw [ccs_unauthorized hf hstaff hm he] at h
          simp at h

/-- Concrete closed loan row backing the demo fine. -/
def demoClosedLoan : Loan :=
  { loanid := 1, bookid := 1, memberid := 1, checkoutdate := 0, duedate := 14,
    returndate := some 20 }

/-- Concrete Unpaid fine row ($6.00) used by the witnesses. -/
def demoFine : Fine :=
  { fineid := 1, loanid := 1, memberid := 1, amountCents := 600,
    status := "Unpaid" }

/-- Store with one Unpaid fine for the demo member. -/
def demoFineState : LibraryState :=
  { authors := [demoAuthor], books := [demoBookAvail], members := [demoMember],
    loans := [demoClosedLoan], fines := [demoFine], nextAuthorId := 2,
    nextBookId := 2, nextMemberId := 2, nextLoanId := 2, nextFineId := 2 }

/-- Librarian actor (staff flag set). -/
def staffActor : Actor := { email := "lib@example.com", isStaff := true }

/-- Non-staff actor who does not own the demo fine. -/
def strangerActor : Actor := { email := "mallory@example.com", isStaff := false }

/-- Non-staff actor whose email matches the demo fine's owner. -/
def ownerActor : Actor := { email := "ann@example.com", isStaff := false }

/-- C6 (witness): on concrete stores — a staff-initiated session on the
demo fine resolves to the owning member, settlement of a missing fine
reports it absent, and the stranger's attempt on the demo fine is
refused. -/
theorem C6_witness :
    (∃ fine, findFine demoFineState 1 = some fine ∧
      (staffActor.isStaff = true ∨
        ∃ m, findMember demoFineState fine.memberid = some m ∧
          m.email = staffActor.email)) ∧
    create_checkout_session demoAvailState strangerActor 1 = .fineNotFound ∧
    create_checkout_session demoFineState strangerActor 1 = .unauthorized :=
  ⟨(C6_settlement_authorization demoFineState staffActor 1).1 600
     "Library Fine - Book: Dune" rfl,
   (C6_settlement_authorization demoAvailState strangerActor 1).2.1 rfl,
   (C6_settlement_authorization demoFineState strangerActor 1).2.2 demoFine
     demoMember rfl rfl rfl (by decide)⟩

theorem payment_success_some (s : LibraryState) (actor : Actor) (fineId : Nat)
    (fine : Fine) (hf : findFine s fineId = some fine) :
    payment_success s actor fineId =
      (.paid fine.amountCents,
       { s with fines := s.fines.map (fun f =>
           if f.fineid == fine.fineid then { f with status := "Paid" } else f) }) := by
  unfold payment_success
  rw [hf]

/-- C7 (confirmed): confirming payment on an existing fine succeeds and
marks the fine `'Paid'` unconditionally, and a second confirm on the same
fine also succeeds (same acknowledged amount) and leaves the fine
`'Paid'`. -/
theorem C7_confirm_unconditional_and_repeatable (s : LibraryState)
    (actor actor2 : Actor) (fineId : Nat) (fine : Fine)
    (hf : findFine s fineId = some fine) :
    (payment_success s actor fineId).1 = .paid fine.amountCents ∧
    findFine (payment_success s actor fineId).2 fineId =
      some { fine with status := "Paid" } ∧
    (payment_success (payment_success s actor fineId).2 actor2 fineId).1 =
      .paid fine.amountCents ∧
    findFine (payment_success (payment_success s actor fineId).2 actor2 fineId).2 fineId =
      some { fine with status := "Paid" } := by
  have h1 := payment_success_some s actor fineId fine hf
  have hfind1 : findFine (payment_success s actor fineId).2 fineId =
      some { fine with status := "Paid" } := by
    rw [h1]
    show (s.fines.map fun f =>
        if f.fineid == fine.fineid then { f with status := "Paid" } else f).find?
        (fun f => f.fineid == fineId) = some { fine with status := "Paid" }
    rw [find?_map_pred (fun f => by split <;> rfl) s.fines]
    have hf2 : s.fines.find? (fun f => f.fineid == fineId) = some fine := hf
    rw [hf2]
    simp
  have h2 := payment_success_some (payment_success s actor fineId).2 actor2 fineId { fine with status := "Paid" } hfind1
  refine ⟨by rw [h1], hfind1, by rw [h2], ?_⟩
  rw [h2]
  show ((payment_success s actor fineId).2.fines.map fun f =>
      if f.fineid == ({ fine with status := "Paid" } : Fine).fineid then
        { f with status := "Paid" } else f).find?
      (fun f => f.fineid == fineId) = some { fine with status := "Paid" }
  rw [find?_map_pred (fun f => by split <;> rfl) _]
  have hf3 : (payment_success s actor fineId).2.fines.find?
      (fun f => f.fineid == fineId) = some { fine with status := "Paid" } := hfind1
  rw [hf3]
  simp

/-- C7 (witness): confirming the demo fine twice — the first confirm marks
it `'Paid'`, the second also succeeds and leaves it `'Paid'`. -/
theorem C7_witness :
    (payment_success demoFineState ownerActor 1).1 = .paid demoFine.amountCents ∧
    findFine (payment_success demoFineState ownerActor 1).2 1 =
      some { demoFine with status := "Paid" } ∧
    (payment_success (payment_success demoFineState ownerActor 1).2 staffActor 1).1 =
      .paid demoFine.amountCents ∧
    findFine (payment_success (payment_success demoFineState ownerActor 1).2 staffActor 1).2 1 =
      some { demoFine with status := "Paid" } :=
  C7_confirm_unconditional_and_repeatable demoFineState ownerActor staffActor 1
    demoFine rfl

/-- C10 (confirmed): the confirm callback's behaviour — both its result and
the state it produces — is a constant function of the requesting
authenticated actor, because `payment_success` never reads the actor; by
contrast the initiate step does depend on the actor (the owner gets a
gateway session for the demo fine, the stranger is refused). -/
theorem C10_confirm_actor_independent :
    (∀ (a1 a2 : Actor) (s : LibraryState) (fineId : Nat),
      payment_success s a1 fineId = payment_success s a2 fineId) ∧
    create_checkout_session demoFineState ownerActor 1 ≠
      create_checkout_session demoFineState strangerActor 1 := by
  constructor
  · intro a1 a2 s fineId
    rfl
  · decide

/-- C8 (confirmed): for a resolvable member, the debt reminder computes the
member's total Unpaid fine amount; when it is zero the view reports the
informational no-op and sends nothing, and when it is positive it sends a
message addressed to the member's email whose plain-text and HTML parts
both contain the rendered amount. -/
theorem C8_debt_reminder (s : LibraryState) (memberId : Nat) (member : Member)
    (accountUrl : String) (year : Nat)
    (hm : findMember s memberId = some member) :
    (totalUnpaidCents s memberId = 0 →
      notify_debtor_view s memberId accountUrl year = .noDebt) ∧
    (0 < totalUnpaidCents s memberId →
      ∃ msg, notify_debtor_view s memberId accountUrl year = .sent msg ∧
        msg.toAddr = member.email ∧
        (∃ p q, msg.textBody =
          p ++ (centsToString (totalUnpaidCents s memberId) ++ q)) ∧
        (∃ p q, msg.htmlBody =
          p ++ (centsToString (totalUnpaidCents s memberId) ++ q))) := by
  constructor
  · intro hz
    unfold notify_debtor_view
    rw [hm]
    dsimp only
    simp [hz]
  · intro hpos
    unfold notify_debtor_view
    rw [hm]
    dsimp only
    rw [if_pos hpos]
    exact ⟨_, rfl, rfl,
      ⟨textA ++ member.firstname ++ textB, textC ++ accountUrl ++ textD, rfl⟩,
      ⟨htmlA ++ member.firstname ++ htmlB,
       htmlC ++ accountUrl ++ htmlD ++ toString year ++ htmlE, rfl⟩⟩

/-- C8 (witness): the demo member owes $6.00 in the fine store, so the
reminder is sent to their address with the amount in both bodies; the same
member owes nothing in the loan-free store, so that reminder is the
informational no-op. -/
theorem C8_witness :
    notify_debtor_view demoAvailState 1 "http://lib.example/fees/" 2026 = .noDebt ∧
    (∃ msg, notify_debtor_view demoFineState 1 "http://lib.example/fees/" 2026 =
        .sent msg ∧
      msg.toAddr = demoMember.email ∧
      (∃ p q, msg.textBody =
        p ++ (centsToString (totalUnpaidCents demoFineState 1) ++ q)) ∧
      (∃ p q, msg.htmlBody =
        p ++ (centsToString (totalUnpaidCents demoFineState 1) ++ q))) :=
  ⟨(C8_debt_reminder demoAvailState 1 demoMember "http://lib.example/fees/" 2026
      rfl).1 rfl,
   (C8_debt_reminder demoFineState 1 demoMember "http://lib.example/fees/" 2026
      rfl).2 (by decide)⟩

/-- Spec-side member search predicate, written from the spec's words:
case-insensitive substring match across the member's listed fields (first
and last name, email, id), OR-combined. -/
def memberMatchesSpec (q : String) (m : Member) : Bool :=
  icontains m.firstname q || icontains m.lastname q ||
  icontains m.email q || icontains (toString m.memberid) q

/-- Spec-side book search predicate, written from the spec's words:
case-insensitive substring match across the book's listed fields (title,
author name, ISBN), OR-combined. -/
def bookMatchesSpec (s : LibraryState) (q : String) (b : Book) : Bool :=
  icontains b.title q || bookAuthorMatches s b q || icontains b.isbn q

/-- C9 (counterexample): the claim as stated is false for the catalog
search — `search_view` filters a single field selected by `search_type`
rather than OR-combining the fields: searching the demo catalog for
"frank" with type `'title'` returns no books, while the OR-combined
case-insensitive match finds the book through its author Frank Herbert. -/
theorem C9_counterexample :
    search_view demoAvailState "frank" "title" ≠
      some (demoAvailState.books.filter (bookMatchesSpec demoAvailState "frank")) := by
  decide

/-- C9 (amended): the member and book listings OR-combine case-insensitive
substring matches over their listed fields (name/email/id, resp.
title/author/ISBN) and cap the unfiltered listing at 50 rows; the catalog
search, however, applies a case-insensitive substring match to only the one
field selected by `search_type` (`'title'` or `'author'`), and returns
nothing for an empty term. -/
theorem C9_search_semantics (s : LibraryState) (q term ty : String) :
    (q ≠ "" → member_list_view s q = s.members.filter (memberMatchesSpec q)) ∧
    (member_list_view s "" = s.members.take 50 ∧
      (member_list_view s "").length ≤ 50) ∧
    (q ≠ "" → book_list_view s q = s.books.filter (bookMatchesSpec s q)) ∧
    (book_list_view s "" = s.books.take 50 ∧
      (book_list_view s "").length ≤ 50) ∧
    (term ≠ "" →
      search_view s term "title" =
        some (s.books.filter (fun b => icontains b.title term)) ∧
      search_view s term "author" =
        some (s.books.filter (fun b => bookAuthorMatches s b term))) ∧
    search_view s "" ty = none := by
  refine ⟨?_, ⟨?_, ?_⟩, ?_, ⟨?_, ?_⟩, ?_, ?_⟩
  · intro hq
    unfold member_list_view
    rw [if_pos (bne_iff_ne.mpr hq)]
    rfl
  · unfold member_list_view
    rw [if_neg (by simp)]
  · unfold member_list_view
    rw [if_neg (by simp)]
    exact List.length_take_le 50 s.members
  · intro hq
    unfold book_list_view
    rw [if_pos (bne_iff_ne.mpr hq)]
    rfl
  · unfold book_list_view
    rw [if_neg (by simp)]
  · unfold book_list_view
    rw [if_neg (by simp)]
    exact List.length_take_le 50 s.books
  · intro ht
    constructor
    · unfold search_view
      rw [if_pos (bne_iff_ne.mpr ht), if_pos (by simp)]
    · unfold search_view
      rw [if_pos (bne_iff_ne.mpr ht), if_neg (by simp), if_pos (by simp)]
  · unfold search_view
    rw [if_neg (by simp)]

/-- C9 (witness): the amended search semantics evaluated on the demo store
with the queries "ann" and "frank". -/
theorem C9_witness :
    member_list_view demoFineState "ann" =
      demoFineState.members.filter (memberMatchesSpec "ann") ∧
    book_list_view demoFineState "frank" =
      demoFineState.books.filter (bookMatchesSpec demoFineState "frank") ∧
    (search_view demoFineState "frank" "title" =
      some (demoFineState.books.filter (fun b => icontains b.title "frank")) ∧
     search_view demoFineState "frank" "author" =
      some (demoFineState.books.filter (fun b => bookAuthorMatches demoFineState b "frank"))) :=
  ⟨(C9_search_semantics demoFineState "ann" "frank" "x").1 (by decide),
   (C9_search_semantics demoFineState "frank" "frank" "x").2.2.1 (by decide),
   (C9_search_semantics demoFineState "ann" "frank" "x").2.2.2.2.1 (by decide)⟩
